import Mathlib

/-!
Shallow embedding of the access-control and route-gating logic of the
facility-management application.

The authoritative access control is the set of row-level-security (RLS)
policies declared in `supabase/migrations/*.sql` (plus the policy rewrite
performed by the `fixProfilesPolicy` maintenance script).  Each policy is a
boolean predicate over the `profiles` table state, the authenticated caller's
id (`auth.uid()`), and the candidate row; the platform permits an operation
iff at least one policy declared for that (table, operation) evaluates to
true (permissive policies combine by logical OR).

The client-side route gate is `src/middleware.ts`; it is embedded as a pure
function over the request path, the request's cookie names, and the outcomes
of its two fallible asynchronous steps (the session fetch and the role
lookup), recording which of those steps were actually consulted.

All actors modelled here are authenticated (`auth.uid()` is defined); the
`TO authenticated` clause of the policies is therefore implicit.
-/

namespace CCAI

/-- UUIDs are modelled as abstract identifiers. -/
abbrev UserId := Nat

/-- `profiles.role`: CHECK (role IN ('ADMIN', 'STAFF', 'FAMILY', 'RESIDENT')). -/
inductive Role where
  | ADMIN
  | STAFF
  | FAMILY
  | RESIDENT
deriving DecidableEq, Repr

/-- A `profiles` row: id, email (made nullable by the decoupling migration),
full_name, role, and the nullable soft-delete `status` column added by the
soft-delete migration (values 'active' / 'inactive'). -/
structure Profile where
  id : UserId
  email : Option String
  full_name : String
  role : Role
  status : Option String
deriving DecidableEq, Repr

/-- The tables carrying RLS policies in the migrations. -/
inductive Tab where
  | profiles
  | residents
  | staff
  | events
  | incidents
  | medications
  | announcements
  | care_plans
  | care_routines
  | chat_messages
  | notifications
  | tasks
  | todos
  | medication_log
deriving DecidableEq, Repr

/-- The SQL operations gated by the policies. -/
inductive Op where
  | SELECT
  | INSERT
  | UPDATE
  | DELETE
deriving DecidableEq, Repr

/-- A candidate row, carrying every column referenced by any policy
predicate.  For `profiles` the relevant columns are `id` and `status`; for
`chat_messages` they are `sender_id` and `receiver_id`; for `notifications`
`user_id`; for `tasks` / `todos` `assigned_to`; for `medication_log`
`administered_by`.  Policies for a table read only that table's columns. -/
structure Row where
  id : UserId
  sender_id : UserId
  receiver_id : UserId
  user_id : UserId
  assigned_to : UserId
  administered_by : UserId
  status : Option String
deriving DecidableEq, Repr

/-- `get_my_role()`: SELECT role FROM public.profiles WHERE id = auth.uid()
(a SECURITY DEFINER helper; also the scalar subquery form used by the
`medication_log` policies). -/
def get_my_role (db : List Profile) (uid : UserId) : Option Role :=
  (db.find? (fun p => p.id == uid)).map (fun p => p.role)

/-- EXISTS (SELECT 1 FROM profiles WHERE id = auth.uid() AND role IN ('ADMIN','STAFF')). -/
def isAdminOrStaff (db : List Profile) (uid : UserId) : Bool :=
  db.any (fun p => p.id == uid && (p.role == Role.ADMIN || p.role == Role.STAFF))

/-- EXISTS (SELECT 1 FROM profiles WHERE id = auth.uid() AND role = 'FAMILY'). -/
def isFamilyActor (db : List Profile) (uid : UserId) : Bool :=
  db.any (fun p => p.id == uid && p.role == Role.FAMILY)

/-- auth.uid() IN (SELECT id FROM profiles WHERE role = 'ADMIN') — equivalently
EXISTS (SELECT 1 FROM profiles WHERE id = auth.uid() AND role = 'ADMIN'). -/
def isAdminActor (db : List Profile) (uid : UserId) : Bool :=
  db.any (fun p => p.id == uid && p.role == Role.ADMIN)

/-- get_my_role() IN ('ADMIN', 'STAFF'). -/
def roleIsAdminOrStaff (db : List Profile) (uid : UserId) : Bool :=
  get_my_role db uid == some Role.ADMIN || get_my_role db uid == some Role.STAFF

/-- One declarative RLS policy: its name, table, gated operation, and the
USING / WITH CHECK boolean predicate over (profiles state, auth.uid(), row). -/
structure Policy where
  name : String
  table : Tab
  op : Op
  pred : List Profile → UserId → Row → Bool

/-! ### The individual policies, one definition per CREATE POLICY statement -/

/-- CREATE POLICY "Users can view their own profile" ON profiles FOR SELECT
USING (auth.uid() = id). -/
def profilesSelectOwn : Policy :=
  ⟨"Users can view their own profile", Tab.profiles, Op.SELECT,
    fun _db uid r => uid == r.id⟩

/-- CREATE POLICY "Users can update their own profile" ON profiles FOR UPDATE
USING (auth.uid() = id). -/
def profilesUpdateOwn : Policy :=
  ⟨"Users can update their own profile", Tab.profiles, Op.UPDATE,
    fun _db uid r => uid == r.id⟩

/-- CREATE POLICY "Admins can view all profiles" ON profiles FOR SELECT
USING (EXISTS (SELECT 1 FROM profiles WHERE id = auth.uid() AND role = 'ADMIN'))
— the original, self-referential form from the initial schema migration. -/
def profilesSelectAdminRecursive : Policy :=
  ⟨"Admins can view all profiles", Tab.profiles, Op.SELECT,
    fun db uid _r => isAdminActor db uid⟩

/-- CREATE POLICY "Admins can view all profiles" ON profiles FOR SELECT
USING (true) — the replacement installed by the `fixProfilesPolicy` script to
break the recursion; it permits every authenticated caller. -/
def profilesSelectAllFixed : Policy :=
  ⟨"Admins can view all profiles", Tab.profiles, Op.SELECT,
    fun _db _uid _r => true⟩

/-- CREATE POLICY "Admins can update any profile" ON profiles FOR UPDATE
USING (auth.uid() IN (SELECT id FROM profiles WHERE role = 'ADMIN')) — added
by the `fixProfilesPolicy` script. -/
def profilesUpdateAdmin : Policy :=
  ⟨"Admins can update any profile", Tab.profiles, Op.UPDATE,
    fun db uid _r => isAdminActor db uid⟩

/-- CREATE POLICY "Allow authenticated users to insert profiles" ON profiles
FOR INSERT WITH CHECK (true). -/
def profilesInsertAny : Policy :=
  ⟨"Allow authenticated users to insert profiles", Tab.profiles, Op.INSERT,
    fun _db _uid _r => true⟩

/-- CREATE POLICY "Staff and admins can view all residents" ON residents FOR
SELECT USING (EXISTS (... role IN ('ADMIN','STAFF'))). -/
def residentsSelectStaffAdmin : Policy :=
  ⟨"Staff and admins can view all residents", Tab.residents, Op.SELECT,
    fun db uid _r => isAdminOrStaff db uid⟩

/-- CREATE POLICY "Family members can view their resident" ON residents FOR
SELECT USING (EXISTS (SELECT 1 FROM profiles WHERE id = auth.uid() AND role =
'FAMILY')) — despite its name, the predicate tests only the caller's role;
no resident column and no family-to-resident linkage is consulted. -/
def residentsSelectFamily : Policy :=
  ⟨"Family members can view their resident", Tab.residents, Op.SELECT,
    fun db uid _r => isFamilyActor db uid⟩

/-- CREATE POLICY "Everyone can view staff" ON staff FOR SELECT TO
authenticated USING (true). -/
def staffSelectAll : Policy :=
  ⟨"Everyone can view staff", Tab.staff, Op.SELECT,
    fun _db _uid _r => true⟩

/-- CREATE POLICY "Allow admin insert access for staff" ON staff FOR INSERT
WITH CHECK (public.get_my_role() = 'ADMIN'). -/
def staffInsertAdmin : Policy :=
  ⟨"Allow admin insert access for staff", Tab.staff, Op.INSERT,
    fun db uid _r => get_my_role db uid == some Role.ADMIN⟩

/-- CREATE POLICY "Allow admin/staff select access for staff" ON staff FOR
SELECT USING (public.get_my_role() IN ('ADMIN', 'STAFF')). -/
def staffSelectAdminStaff : Policy :=
  ⟨"Allow admin/staff select access for staff", Tab.staff, Op.SELECT,
    fun db uid _r => roleIsAdminOrStaff db uid⟩

/-- CREATE POLICY "Everyone can view events" ON events FOR SELECT TO
authenticated USING (true). -/
def eventsSelectAll : Policy :=
  ⟨"Everyone can view events", Tab.events, Op.SELECT,
    fun _db _uid _r => true⟩

/-- CREATE POLICY "Staff and admins can create events" ON events FOR INSERT
WITH CHECK (EXISTS (... role IN ('ADMIN','STAFF'))). -/
def eventsInsertStaffAdmin : Policy :=
  ⟨"Staff and admins can create events", Tab.events, Op.INSERT,
    fun db uid _r => isAdminOrStaff db uid⟩

/-- CREATE POLICY "Staff and admins can view all incidents" ON incidents FOR
SELECT USING (EXISTS (... role IN ('ADMIN','STAFF'))). -/
def incidentsSelectStaffAdmin : Policy :=
  ⟨"Staff and admins can view all incidents", Tab.incidents, Op.SELECT,
    fun db uid _r => isAdminOrStaff db uid⟩

/-- CREATE POLICY "Staff and admins can create incidents" ON incidents FOR
INSERT WITH CHECK (EXISTS (... role IN ('ADMIN','STAFF'))). -/
def incidentsInsertStaffAdmin : Policy :=
  ⟨"Staff and admins can create incidents", Tab.incidents, Op.INSERT,
    fun db uid _r => isAdminOrStaff db uid⟩

/-- CREATE POLICY "Staff and admins can view all medications" ON medications
FOR SELECT USING (EXISTS (... role IN ('ADMIN','STAFF'))). -/
def medicationsSelectStaffAdmin : Policy :=
  ⟨"Staff and admins can view all medications", Tab.medications, Op.SELECT,
    fun db uid _r => isAdminOrStaff db uid⟩

/-- CREATE POLICY "Staff and admins can create medications" ON medications
FOR INSERT WITH CHECK (EXISTS (... role IN ('ADMIN','STAFF'))). -/
def medicationsInsertStaffAdmin : Policy :=
  ⟨"Staff and admins can create medications", Tab.medications, Op.INSERT,
    fun db uid _r => isAdminOrStaff db uid⟩

/-- CREATE POLICY "Everyone can view announcements" ON announcements FOR
SELECT TO authenticated USING (true). -/
def announcementsSelectAll : Policy :=
  ⟨"Everyone can view announcements", Tab.announcements, Op.SELECT,
    fun _db _uid _r => true⟩

/-- CREATE POLICY "Staff and admins can create announcements" ON
announcements FOR INSERT WITH CHECK (EXISTS (... role IN ('ADMIN','STAFF'))). -/
def announcementsInsertStaffAdmin : Policy :=
  ⟨"Staff and admins can create announcements", Tab.announcements, Op.INSERT,
    fun db uid _r => isAdminOrStaff db uid⟩

/-- CREATE POLICY "Staff and admins can view all care plans" ON care_plans
FOR SELECT USING (EXISTS (... role IN ('ADMIN','STAFF'))). -/
def carePlansSelectStaffAdmin : Policy :=
  ⟨"Staff and admins can view all care plans", Tab.care_plans, Op.SELECT,
    fun db uid _r => isAdminOrStaff db uid⟩

/-- CREATE POLICY "Staff and admins can create care plans" ON care_plans FOR
INSERT WITH CHECK (EXISTS (... role IN ('ADMIN','STAFF'))). -/
def carePlansInsertStaffAdmin : Policy :=
  ⟨"Staff and admins can create care plans", Tab.care_plans, Op.INSERT,
    fun db uid _r => isAdminOrStaff db uid⟩

/-- CREATE POLICY "Staff and admins can view all care routines" ON
care_routines FOR SELECT USING (EXISTS (... role IN ('ADMIN','STAFF'))). -/
def careRoutinesSelectStaffAdmin : Policy :=
  ⟨"Staff and admins can view all care routines", Tab.care_routines, Op.SELECT,
    fun db uid _r => isAdminOrStaff db uid⟩

/-- CREATE POLICY "Staff and admins can create care routines" ON
care_routines FOR INSERT WITH CHECK (EXISTS (... role IN ('ADMIN','STAFF'))). -/
def careRoutinesInsertStaffAdmin : Policy :=
  ⟨"Staff and admins can create care routines", Tab.care_routines, Op.INSERT,
    fun db uid _r => isAdminOrStaff db uid⟩

/-- CREATE POLICY "Users can view their own messages" ON chat_messages FOR
SELECT USING (auth.uid() = sender_id OR auth.uid() = receiver_id) — present
in the initial schema, dropped by the temp-debug migration, and recreated
verbatim by the restore migration. -/
def chatSelectOwn : Policy :=
  ⟨"Users can view their own messages", Tab.chat_messages, Op.SELECT,
    fun _db uid r => uid == r.sender_id || uid == r.receiver_id⟩

/-- CREATE POLICY "TEMP - Allow any authenticated user to select all
messages" ON chat_messages FOR SELECT TO authenticated USING (true). -/
def tempChatSelectAll : Policy :=
  ⟨"TEMP - Allow any authenticated user to select all messages",
    Tab.chat_messages, Op.SELECT, fun _db _uid _r => true⟩

/-- CREATE POLICY "Users can create messages" ON chat_messages FOR INSERT
WITH CHECK (auth.uid() = sender_id). -/
def chatInsertOwn : Policy :=
  ⟨"Users can create messages", Tab.chat_messages, Op.INSERT,
    fun _db uid r => uid == r.sender_id⟩

/-- CREATE POLICY "Users can view their own notifications" ON notifications
FOR SELECT USING (auth.uid() = user_id). -/
def notificationsSelectOwn : Policy :=
  ⟨"Users can view their own notifications", Tab.notifications, Op.SELECT,
    fun _db uid r => uid == r.user_id⟩

/-- CREATE POLICY "Users can view their own tasks" ON tasks FOR SELECT USING
(auth.uid() = assigned_to). -/
def tasksSelectOwn : Policy :=
  ⟨"Users can view their own tasks", Tab.tasks, Op.SELECT,
    fun _db uid r => uid == r.assigned_to⟩

/-- CREATE POLICY "Staff and admins can create tasks" ON tasks FOR INSERT
WITH CHECK (EXISTS (... role IN ('ADMIN','STAFF'))). -/
def tasksInsertStaffAdmin : Policy :=
  ⟨"Staff and admins can create tasks", Tab.tasks, Op.INSERT,
    fun db uid _r => isAdminOrStaff db uid⟩

/-- CREATE POLICY "Users can view their own todos" ON todos FOR SELECT USING
(auth.uid() = assigned_to). -/
def todosSelectOwn : Policy :=
  ⟨"Users can view their own todos", Tab.todos, Op.SELECT,
    fun _db uid r => uid == r.assigned_to⟩

/-- CREATE POLICY "Users can create their own todos" ON todos FOR INSERT
WITH CHECK (auth.uid() = assigned_to). -/
def todosInsertOwn : Policy :=
  ⟨"Users can create their own todos", Tab.todos, Op.INSERT,
    fun _db uid r => uid == r.assigned_to⟩

/-- CREATE POLICY "Allow admin and staff to view medication logs" ON
medication_log FOR SELECT USING ((SELECT role FROM profiles WHERE id =
auth.uid()) IN ('ADMIN','STAFF')). -/
def medLogSelectStaffAdmin : Policy :=
  ⟨"Allow admin and staff to view medication logs", Tab.medication_log,
    Op.SELECT, fun db uid _r => roleIsAdminOrStaff db uid⟩

/-- CREATE POLICY "Allow admin and staff to insert medication logs" ON
medication_log FOR INSERT WITH CHECK ((SELECT role FROM profiles WHERE id =
auth.uid()) IN ('ADMIN','STAFF') AND administered_by = auth.uid()). -/
def medLogInsertStaffAdmin : Policy :=
  ⟨"Allow admin and staff to insert medication logs", Tab.medication_log,
    Op.INSERT, fun db uid r => roleIsAdminOrStaff db uid && r.administered_by == uid⟩

/-! ### The three observed policy-set states -/

/-- The policy set created by the initial schema migration (including the two
extra `staff` policies declared at its end). -/
def initialPolicies : List Policy :=
  [profilesSelectOwn, profilesUpdateOwn, profilesSelectAdminRecursive,
   residentsSelectStaffAdmin, residentsSelectFamily,
   staffSelectAll,
   eventsSelectAll, eventsInsertStaffAdmin,
   incidentsSelectStaffAdmin, incidentsInsertStaffAdmin,
   medicationsSelectStaffAdmin, medicationsInsertStaffAdmin,
   announcementsSelectAll, announcementsInsertStaffAdmin,
   carePlansSelectStaffAdmin, carePlansInsertStaffAdmin,
   careRoutinesSelectStaffAdmin, careRoutinesInsertStaffAdmin,
   chatSelectOwn, chatInsertOwn,
   notificationsSelectOwn,
   tasksSelectOwn, tasksInsertStaffAdmin,
   todosSelectOwn, todosInsertOwn,
   staffInsertAdmin, staffSelectAdminStaff]

/-- The intermediate debugging state, between the temp-allow-all migration
(DROP "Users can view their own messages"; CREATE the TEMP policy) and the
restore migration. -/
def debugPolicies : List Policy :=
  [profilesSelectOwn, profilesUpdateOwn, profilesSelectAdminRecursive,
   residentsSelectStaffAdmin, residentsSelectFamily,
   staffSelectAll,
   eventsSelectAll, eventsInsertStaffAdmin,
   incidentsSelectStaffAdmin, incidentsInsertStaffAdmin,
   medicationsSelectStaffAdmin, medicationsInsertStaffAdmin,
   announcementsSelectAll, announcementsInsertStaffAdmin,
   carePlansSelectStaffAdmin, carePlansInsertStaffAdmin,
   careRoutinesSelectStaffAdmin, careRoutinesInsertStaffAdmin,
   tempChatSelectAll, chatInsertOwn,
   notificationsSelectOwn,
   tasksSelectOwn, tasksInsertStaffAdmin,
   todosSelectOwn, todosInsertOwn,
   staffInsertAdmin, staffSelectAdminStaff]

/-- The final (shipped) policy set, after the chat restore migration, the
profiles-INSERT policy, the medication_log migration, and the
`fixProfilesPolicy` rewrite (which drops the recursive "Admins can view all
profiles" policy, recreates it with USING (true), and adds "Admins can update
any profile"). -/
def finalPolicies : List Policy :=
  [profilesSelectOwn, profilesUpdateOwn, profilesSelectAllFixed,
   profilesUpdateAdmin, profilesInsertAny,
   residentsSelectStaffAdmin, residentsSelectFamily,
   staffSelectAll,
   eventsSelectAll, eventsInsertStaffAdmin,
   incidentsSelectStaffAdmin, incidentsInsertStaffAdmin,
   medicationsSelectStaffAdmin, medicationsInsertStaffAdmin,
   announcementsSelectAll, announcementsInsertStaffAdmin,
   carePlansSelectStaffAdmin, carePlansInsertStaffAdmin,
   careRoutinesSelectStaffAdmin, careRoutinesInsertStaffAdmin,
   chatSelectOwn, chatInsertOwn,
   notificationsSelectOwn,
   tasksSelectOwn, tasksInsertStaffAdmin,
   todosSelectOwn, todosInsertOwn,
   staffInsertAdmin, staffSelectAdminStaff,
   medLogSelectStaffAdmin, medLogInsertStaffAdmin]

/-- The policies declared for a given (table, operation). -/
def applicablePolicies (ps : List Policy) (t : Tab) (o : Op) : List Policy :=
  ps.filter (fun p => p.table == t && p.op == o)

/-- The platform's permissive-policy semantics: an operation is permitted iff
at least one applicable policy predicate returns true (logical OR across
policies; an operation with no declared policy is denied). -/
def permits (ps : List Policy) (db : List Profile) (uid : UserId)
    (t : Tab) (o : Op) (r : Row) : Bool :=
  (applicablePolicies ps t o).any (fun p => p.pred db uid r)

/-! ### Sample data for concrete instantiations -/

/-- A sample profiles state: one profile per role. -/
def sampleDb : List Profile :=
  [⟨1, some "admin@example.com", "Admin User", Role.ADMIN, some "active"⟩,
   ⟨2, none, "Staff User", Role.STAFF, some "active"⟩,
   ⟨3, none, "Family User", Role.FAMILY, none⟩,
   ⟨4, none, "Resident User", Role.RESIDENT, some "inactive"⟩]

/-- A sample row: a chat message from profile 1 to profile 2, owned by
profile 10 when read as a profiles row. -/
def sampleRow : Row := ⟨10, 1, 2, 3, 4, 5, none⟩

/-! ### Client-side profile-listing query (incidents pages)

The incidents pages fetch the potential assignees with
`.from("profiles").select("id, full_name, email").in("role", ["ADMIN",
"STAFF"]).order("full_name")`; the soft-delete filter `.eq("status",
"active")` is commented out in the source. -/

/-- The projection selected by the assignees query: id, full_name, email. -/
def assigneeProjection (p : Profile) : UserId × String × Option String :=
  (p.id, p.full_name, p.email)

/-- Code-point lexicographic order on strings (as character lists), standing
in for the store's text collation in `.order("full_name")`. -/
def charsLe : List Char → List Char → Bool
  | [], _ => true
  | _ :: _, [] => false
  | a :: as, b :: bs =>
    if a.toNat < b.toNat then true
    else if b.toNat < a.toNat then false
    else charsLe as bs

/-- Insertion step of the sort modelling `.order("full_name")`. -/
def insertByName (x : UserId × String × Option String) :
    List (UserId × String × Option String) → List (UserId × String × Option String)
  | [] => [x]
  | y :: ys => if charsLe x.2.1.data y.2.1.data then x :: y :: ys else y :: insertByName x ys

/-- Sort by the full_name component, modelling `.order("full_name")`. -/
def sortByName (xs : List (UserId × String × Option String)) :
    List (UserId × String × Option String) :=
  xs.foldr insertByName []

/-- The potential-assignees fetch: filter role IN ('ADMIN','STAFF'), project
(id, full_name, email), order by full_name.  The status filter present in the
source only as a comment is (faithfully) absent. -/
def fetchPotentialAssignees (db : List Profile) : List (UserId × String × Option String) :=
  sortByName ((db.filter (fun p => p.role == Role.ADMIN || p.role == Role.STAFF)).map
    assigneeProjection)

/-- Two profiles agreeing on every column except possibly `status`. -/
def agreesExceptStatus (p q : Profile) : Bool :=
  p.id == q.id && p.email == q.email && p.full_name == q.full_name && p.role == q.role

/-- Two profile-table states that are pointwise identical except possibly in
`status` values. -/
def sameExceptStatus : List Profile → List Profile → Bool
  | [], [] => true
  | p :: ps, q :: qs => agreesExceptStatus p q && sameExceptStatus ps qs
  | _, _ => false

/-! ### The client-side route gate (src/middleware.ts)

The middleware is embedded as a pure function of the request path, the list
of cookie names on the request, and the outcomes of its two fallible
asynchronous steps: the fallback `supabase.auth.getSession()` call and the
role lookup `from("profiles").select("role").eq("id", uid).single()`.  (The
result-discarding session-refresh call at the top of the function is not part
of the gating decision and is not modelled.)  Each step either returns a
`{data, error}` pair or throws; a throw during the role lookup is caught by
the inner catch, any other throw inside the gate body by the outer catch, and
both catches return the response unchanged.  The outcome records, besides the
navigation result, whether the fallback session fetch and the role lookup
were reached. -/

/-- The `protectedRoutes` map: path-prefix to allowed roles, in declaration
order (JS object insertion order, as iterated by Object.entries). -/
def protectedRoutes : List (String × List String) :=
  [("/dashboard", ["ADMIN", "STAFF", "FAMILY", "RESIDENT"]),
   ("/dashboard/admin", ["ADMIN"]),
   ("/dashboard/staff", ["ADMIN", "STAFF"]),
   ("/dashboard/family", ["ADMIN", "FAMILY"]),
   ("/dashboard/resident", ["ADMIN", "RESIDENT"])]

/-- The `authRoutes` list of always-pass-through routes. -/
def authRoutes : List String :=
  ["/login", "/register", "/auth/callback", "/forgot-password",
   "/reset-password", "/direct-login", "/direct-dashboard",
   "/dashboard-direct", "/force-dashboard"]

/-- Models JS `String.prototype.startsWith` (character-list based, so that
concrete instances evaluate inside the kernel). -/
def jsStartsWith (s pat : String) : Bool := pat.data.isPrefixOf s.data

/-- One character list occurs inside another. -/
def infixOfChars (pat : List Char) : List Char → Bool
  | [] => pat.isEmpty
  | c :: cs => pat.isPrefixOf (c :: cs) || infixOfChars pat cs

/-- Models JS `String.prototype.includes`: true iff the pattern occurs as a
substring. -/
def jsIncludes (s pat : String) : Bool := infixOfChars pat.data s.data

/-- path.startsWith('/_next') || path.startsWith('/favicon.ico') ||
path.startsWith('/public'). -/
def isAssetPath (path : String) : Bool :=
  jsStartsWith path "/_next" || jsStartsWith path "/favicon.ico" ||
    jsStartsWith path "/public"

/-- authRoutes.some(route => path === route || path.startsWith(route + '/')). -/
def isAuthRoute (path : String) : Bool :=
  authRoutes.any (fun route => path == route || jsStartsWith path (route ++ "/"))

/-- Object.keys(protectedRoutes).some(route => path.startsWith(route)). -/
def isProtectedRoute (path : String) : Bool :=
  protectedRoutes.any (fun e => jsStartsWith path e.1)

/-- The keys produced by JS `Object.entries` when applied to an ARRAY: the
array indices rendered as decimal strings ("0", "1", ...), not any `name`
field of the elements.  `request.cookies.getAll()` returns an array of cookie
objects, so this is what the destructured `[name]` binds to in the source. -/
def objectEntriesKeys {α : Type} (xs : List α) : List String :=
  (List.range xs.length).map (fun i => toString i)

/-- The cookie heuristic: request.cookies.has('sb-access-token') ||
request.cookies.has('sb-refresh-token') ||
Object.entries(request.cookies.getAll()).some(([name]) =>
name.startsWith('sb-') && name.includes('auth')).  Because `getAll()` yields
an array, the names inspected by the third disjunct are the array indices. -/
def hasAuthCookie (cookieNames : List String) : Bool :=
  cookieNames.contains "sb-access-token" ||
  cookieNames.contains "sb-refresh-token" ||
  (objectEntriesKeys cookieNames).any
    (fun n => jsStartsWith n "sb-" && jsIncludes n "auth")

/-- Outcome of a fallible asynchronous step: it either threw, or returned a
value. -/
inductive Step (α : Type) where
  | thrown
  | ok (val : α)
deriving DecidableEq, Repr

/-- The `{data: {session}, error}` shape returned by the fallback
getSession call: whether `error` was non-null, and the session's user id when
a session was present. -/
structure SessionRes where
  hasError : Bool
  session : Option UserId
deriving DecidableEq, Repr

/-- The `{data: profile, error: profileError}` shape returned by the role
lookup: whether `profileError` was non-null, and `profile?.role`. -/
structure ProfileRes where
  hasError : Bool
  role : Option String
deriving DecidableEq, Repr

/-- Navigation results the middleware can produce. -/
inductive Nav where
  | proceed
  | toLogin
  | toDashboard
deriving DecidableEq, Repr

/-- The middleware's observable outcome: the navigation result, and whether
the fallback session fetch and the role lookup were reached. -/
structure MWOutcome where
  nav : Nav
  sessionFetched : Bool
  roleChecked : Bool
deriving DecidableEq, Repr

/-- if (routeEntry && userRole) { if (!allowedRoles.includes(userRole))
redirect('/dashboard') } — routeEntry being the FIRST protectedRoutes entry
whose key is a prefix of the path. -/
def roleGate (path : String) (role : String) : Nav :=
  match protectedRoutes.find? (fun e => jsStartsWith path e.1) with
  | none => Nav.proceed
  | some entry => if !(entry.2.contains role) then Nav.toDashboard else Nav.proceed

/-- The route-gating decision of `middleware(request)`, following the
source's control flow: public-asset paths pass through; auth routes pass
through; non-protected paths pass through; a positive cookie heuristic passes
through; otherwise the fallback session fetch runs (a returned error or an
absent session redirects to login; a throw is caught by the outer catch and
passes through), then the role lookup runs (a returned profileError, a throw,
or an absent role passes through without the role gate; otherwise a role not
allowed for the matched route redirects to /dashboard). -/
def middleware (path : String) (cookieNames : List String)
    (sessionStep : Step SessionRes) (profileStep : Step ProfileRes) : MWOutcome :=
  if isAssetPath path then ⟨Nav.proceed, false, false⟩
  else if isAuthRoute path then ⟨Nav.proceed, false, false⟩
  else if !isProtectedRoute path then ⟨Nav.proceed, false, false⟩
  else if hasAuthCookie cookieNames then ⟨Nav.proceed, false, false⟩
  else
    match sessionStep with
    | Step.thrown => ⟨Nav.proceed, true, false⟩
    | Step.ok s =>
      if s.hasError then ⟨Nav.toLogin, true, false⟩
      else
        match s.session with
        | none => ⟨Nav.toLogin, true, false⟩
        | some _ =>
          match profileStep with
          | Step.thrown => ⟨Nav.proceed, true, true⟩
          | Step.ok pr =>
            if pr.hasError then ⟨Nav.proceed, true, true⟩
            else
              match pr.role with
              | none => ⟨Nav.proceed, true, true⟩
              | some role => ⟨roleGate path role, true, true⟩

/-! ### Applicable-policy sets consulted by the theorems below -/

/-- Final-state SELECT policies on profiles. -/
theorem applProfilesSelect :
    applicablePolicies finalPolicies Tab.profiles Op.SELECT =
      [profilesSelectOwn, profilesSelectAllFixed] := rfl

/-- Final-state UPDATE policies on profiles. -/
theorem applProfilesUpdate :
    applicablePolicies finalPolicies Tab.profiles Op.UPDATE =
      [profilesUpdateOwn, profilesUpdateAdmin] := rfl

/-- Final-state SELECT policies on residents. -/
theorem applResidentsSelect :
    applicablePolicies finalPolicies Tab.residents Op.SELECT =
      [residentsSelectStaffAdmin, residentsSelectFamily] := rfl

/-- Final-state SELECT policies on staff. -/
theorem applStaffSelect :
    applicablePolicies finalPolicies Tab.staff Op.SELECT =
      [staffSelectAll, staffSelectAdminStaff] := rfl

/-- Final-state SELECT policies on chat_messages. -/
theorem applChatSelectFinal :
    applicablePolicies finalPolicies Tab.chat_messages Op.SELECT =
      [chatSelectOwn] := rfl

/-- Debug-state SELECT policies on chat_messages. -/
theorem applChatSelectDebug :
    applicablePolicies debugPolicies Tab.chat_messages Op.SELECT =
      [tempChatSelectAll] := rfl

/-- Final-state INSERT policies on medication_log. -/
theorem applMedLogInsert :
    applicablePolicies finalPolicies Tab.medication_log Op.INSERT =
      [medLogInsertStaffAdmin] := rfl

/-- Final-state SELECT policies on events. -/
theorem applEventsSelect :
    applicablePolicies finalPolicies Tab.events Op.SELECT = [eventsSelectAll] := rfl

/-- Final-state SELECT policies on incidents. -/
theorem applIncidentsSelect :
    applicablePolicies finalPolicies Tab.incidents Op.SELECT =
      [incidentsSelectStaffAdmin] := rfl

/-- Final-state SELECT policies on medications. -/
theorem applMedicationsSelect :
    applicablePolicies finalPolicies Tab.medications Op.SELECT =
      [medicationsSelectStaffAdmin] := rfl

/-- Final-state SELECT policies on announcements. -/
theorem applAnnouncementsSelect :
    applicablePolicies finalPolicies Tab.announcements Op.SELECT =
      [announcementsSelectAll] := rfl

/-- Final-state SELECT policies on care_plans. -/
theorem applCarePlansSelect :
    applicablePolicies finalPolicies Tab.care_plans Op.SELECT =
      [carePlansSelectStaffAdmin] := rfl

/-- Final-state SELECT policies on care_routines. -/
theorem applCareRoutinesSelect :
    applicablePolicies finalPolicies Tab.care_routines Op.SELECT =
      [careRoutinesSelectStaffAdmin] := rfl

/-- Final-state SELECT policies on notifications. -/
theorem applNotificationsSelect :
    applicablePolicies finalPolicies Tab.notifications Op.SELECT =
      [notificationsSelectOwn] := rfl

/-- Final-state SELECT policies on tasks. -/
theorem applTasksSelect :
    applicablePolicies finalPolicies Tab.tasks Op.SELECT = [tasksSelectOwn] := rfl

/-- Final-state SELECT policies on todos. -/
theorem applTodosSelect :
    applicablePolicies finalPolicies Tab.todos Op.SELECT = [todosSelectOwn] := rfl

/-- Final-state SELECT policies on medication_log. -/
theorem applMedLogSelect :
    applicablePolicies finalPolicies Tab.medication_log Op.SELECT =
      [medLogSelectStaffAdmin] := rfl

/-- C1: the RBAC decision is the logical OR of all applicable policies for
the (table, operation): an actor is permitted iff at least one applicable
policy predicate evaluates to true for that actor and row.  On the staff
table the unconditional authenticated SELECT policy and the admin/staff
SELECT policy combine so that ANY authenticated actor may SELECT — in
particular the FAMILY actor of sampleDb, for whom one applicable staff
SELECT policy evaluates to false, is still permitted (permissive, not
restrictive, combination). -/
theorem permits_or_semantics :
    (∀ (ps : List Policy) (db : List Profile) (uid : UserId) (t : Tab) (o : Op) (r : Row),
      permits ps db uid t o r = true ↔
        ∃ p, p ∈ applicablePolicies ps t o ∧ p.pred db uid r = true) ∧
    (∀ (db : List Profile) (uid : UserId) (r : Row),
      permits finalPolicies db uid Tab.staff Op.SELECT r = true) ∧
    ((applicablePolicies finalPolicies Tab.staff Op.SELECT).any
        (fun p => !(p.pred sampleDb 3 sampleRow)) = true ∧
      permits finalPolicies sampleDb 3 Tab.staff Op.SELECT sampleRow = true) := by
  refine ⟨?_, ?_, by decide, by decide⟩
  · intro ps db uid t o r
    simp [permits, List.any_eq_true]
  · intro db uid r
    simp [permits, applStaffSelect, staffSelectAll]

/-- C2: under the final (shipped) policy set every authenticated actor,
regardless of role, may SELECT every profiles row — the policy installed by
`fixProfilesPolicy` in place of the self-or-admin rule has the unconditional
predicate true, so profile rows have no row-level confidentiality. -/
theorem profiles_select_unconditional (db : List Profile) (uid : UserId) (r : Row) :
    permits finalPolicies db uid Tab.profiles Op.SELECT r = true := by
  simp [permits, applProfilesSelect, profilesSelectAllFixed]

/-- C3: under the final (reverted) chat_messages SELECT policy, the sender
and the receiver of a message may SELECT it and every other actor is denied;
under the intermediate debug policy any authenticated actor was permitted. -/
theorem chat_select_final_and_debug (db : List Profile) (r : Row) (c : UserId)
    (hc1 : c ≠ r.sender_id) (hc2 : c ≠ r.receiver_id) :
    permits finalPolicies db r.sender_id Tab.chat_messages Op.SELECT r = true ∧
    permits finalPolicies db r.receiver_id Tab.chat_messages Op.SELECT r = true ∧
    permits finalPolicies db c Tab.chat_messages Op.SELECT r = false ∧
    permits debugPolicies db c Tab.chat_messages Op.SELECT r = true := by
  refine ⟨?_, ?_, ?_, ?_⟩ <;>
    simp [permits, applChatSelectFinal, applChatSelectDebug, chatSelectOwn,
      tempChatSelectAll, hc1, hc2]

/-- Witness for C3: in sampleDb, actor 1 (sender) and actor 2 (receiver) may
SELECT sampleRow, actor 3 is denied under the final policy but permitted
under the debug policy. -/
theorem chat_select_final_and_debug_witness :
    permits finalPolicies sampleDb 1 Tab.chat_messages Op.SELECT sampleRow = true ∧
    permits finalPolicies sampleDb 2 Tab.chat_messages Op.SELECT sampleRow = true ∧
    permits finalPolicies sampleDb 3 Tab.chat_messages Op.SELECT sampleRow = false ∧
    permits debugPolicies sampleDb 3 Tab.chat_messages Op.SELECT sampleRow = true :=
  chat_select_final_and_debug sampleDb sampleRow 3 (by decide) (by decide)

/-- C4: an actor whose id equals the profiles row's id is always permitted to
UPDATE it; an actor with a different id none of whose profile rows has role
ADMIN is denied UPDATE. -/
theorem profiles_update_self_or_admin (db : List Profile) (uid : UserId) (r : Row) :
    (uid = r.id → permits finalPolicies db uid Tab.profiles Op.UPDATE r = true) ∧
    (uid ≠ r.id → (∀ p ∈ db, p.id = uid → p.role ≠ Role.ADMIN) →
      permits finalPolicies db uid Tab.profiles Op.UPDATE r = false) := by
  constructor
  · intro h
    simp [permits, applProfilesUpdate, profilesUpdateOwn, h]
  · intro h hadm
    show ((uid == r.id) || ((isAdminActor db uid) || false)) = false
    simp only [isAdminActor, Bool.or_false, Bool.or_eq_false_iff]
    constructor
    · simpa using h
    · simp only [List.any_eq_false, Bool.and_eq_true, beq_iff_eq, not_and]
      intro p hp h1 h2
      exact hadm p hp h1 h2

/-- Witness for C4: profile 10's owner (actor 10) may update it, while the
STAFF actor 2 (not an ADMIN, not the owner) is denied. -/
theorem profiles_update_self_or_admin_witness :
    permits finalPolicies sampleDb 10 Tab.profiles Op.UPDATE sampleRow = true ∧
    permits finalPolicies sampleDb 2 Tab.profiles Op.UPDATE sampleRow = false :=
  ⟨(profiles_update_self_or_admin sampleDb 10 sampleRow).1 rfl,
   (profiles_update_self_or_admin sampleDb 2 sampleRow).2 (by decide) (by decide)⟩

/-- C5: every actor holding a FAMILY profile may SELECT every residents row:
the FAMILY SELECT policy tests only the caller's role and reads no column of
the residents row, so no linkage scopes it to a particular resident. -/
theorem family_blanket_resident_select (db : List Profile) (uid : UserId) (r : Row)
    (h : ∃ p ∈ db, p.id = uid ∧ p.role = Role.FAMILY) :
    permits finalPolicies db uid Tab.residents Op.SELECT r = true := by
  obtain ⟨p, hp, hid, hrole⟩ := h
  simp only [permits, applResidentsSelect, List.any_cons, List.any_nil,
    residentsSelectFamily, isFamilyActor, Bool.or_eq_true]
  refine Or.inr (Or.inl ?_)
  simp only [List.any_eq_true]
  exact ⟨p, hp, by simp [hid, hrole]⟩

/-- Witness for C5: the FAMILY actor 3 of sampleDb may SELECT the residents
row sampleRow (to which no linkage ties it). -/
theorem family_blanket_resident_select_witness :
    permits finalPolicies sampleDb 3 Tab.residents Op.SELECT sampleRow = true :=
  family_blanket_resident_select sampleDb 3 sampleRow (by decide)

/-- Role promotion: STAFF becomes ADMIN, all other roles unchanged. -/
def promoteRole (ro : Role) : Role :=
  if ro == Role.STAFF then Role.ADMIN else ro

/-- Promote one profile: the actor's STAFF profile rows become ADMIN rows,
every other profile is unchanged. -/
def promoteOne (uid : UserId) (p : Profile) : Profile :=
  if p.id == uid && p.role == Role.STAFF then { p with role := Role.ADMIN } else p

/-- The profiles state in which the actor uid, if recorded as STAFF, is
instead recorded as ADMIN; ids and all other profiles are unchanged, so the
actor keeps the same owner-field relationships to every row. -/
def promoteStaff (uid : UserId) (db : List Profile) : List Profile :=
  db.map (promoteOne uid)

theorem promoteOne_id (uid : UserId) (p : Profile) : (promoteOne uid p).id = p.id := by
  unfold promoteOne
  split <;> rfl

theorem promoteStaff_isAdminOrStaff (db : List Profile) (uid : UserId)
    (h : isAdminOrStaff db uid = true) : isAdminOrStaff (promoteStaff uid db) uid = true := by
  unfold isAdminOrStaff promoteStaff at *
  rw [List.any_eq_true] at h ⊢
  obtain ⟨p, hp, hpred⟩ := h
  refine ⟨promoteOne uid p, List.mem_map_of_mem _ hp, ?_⟩
  unfold promoteOne
  split
  next hif => simp_all
  next hif => exact hpred

theorem promoteStaff_isFamilyActor (db : List Profile) (uid : UserId)
    (h : isFamilyActor db uid = true) : isFamilyActor (promoteStaff uid db) uid = true := by
  unfold isFamilyActor promoteStaff at *
  rw [List.any_eq_true] at h ⊢
  obtain ⟨p, hp, hpred⟩ := h
  refine ⟨promoteOne uid p, List.mem_map_of_mem _ hp, ?_⟩
  unfold promoteOne
  split
  next hif => simp_all
  next hif => exact hpred

theorem promoteStaff_isAdminActor (db : List Profile) (uid : UserId)
    (h : isAdminActor db uid = true) : isAdminActor (promoteStaff uid db) uid = true := by
  unfold isAdminActor promoteStaff at *
  rw [List.any_eq_true] at h ⊢
  obtain ⟨p, hp, hpred⟩ := h
  refine ⟨promoteOne uid p, List.mem_map_of_mem _ hp, ?_⟩
  unfold promoteOne
  split
  next hif => simp_all
  next hif => exact hpred

theorem promoteStaff_get_my_role (uid : UserId) :
    ∀ db : List Profile,
      get_my_role (promoteStaff uid db) uid = (get_my_role db uid).map promoteRole := by
  intro db
  induction db with
  | nil => rfl
  | cons p ps ih =>
    show get_my_role (promoteOne uid p :: promoteStaff uid ps) uid = _
    unfold get_my_role
    rw [List.find?_cons, List.find?_cons]
    by_cases hid : (p.id == uid) = true
    · have hid' : ((promoteOne uid p).id == uid) = true := by
        rw [promoteOne_id]
        exact hid
      rw [hid, hid']
      have hrole : (promoteOne uid p).role = promoteRole p.role := by
        unfold promoteOne promoteRole
        rcases hs : p.role == Role.STAFF <;> simp [hid, hs]
      simp [hrole]
    · have hid0 : (p.id == uid) = false := by simpa using hid
      have hid' : ((promoteOne uid p).id == uid) = false := by
        rw [promoteOne_id]
        exact hid0
      rw [hid0, hid']
      exact ih

theorem promoteStaff_roleIsAdminOrStaff (db : List Profile) (uid : UserId)
    (h : roleIsAdminOrStaff db uid = true) :
    roleIsAdminOrStaff (promoteStaff uid db) uid = true := by
  unfold roleIsAdminOrStaff at *
  rw [promoteStaff_get_my_role]
  rcases hg : get_my_role db uid with _ | ro
  · rw [hg] at h
    simp at h
  · rw [hg] at h
    rcases ro <;> simp_all [promoteRole]

theorem promoteStaff_staffInsert (db : List Profile) (uid : UserId)
    (h : (get_my_role db uid == some Role.ADMIN) = true) :
    (get_my_role (promoteStaff uid db) uid == some Role.ADMIN) = true := by
  rw [promoteStaff_get_my_role]
  simp only [beq_iff_eq] at h ⊢
  rw [h]
  rfl

theorem promoteStaff_medLogInsert (db : List Profile) (uid : UserId) (r : Row)
    (h : (roleIsAdminOrStaff db uid && r.administered_by == uid) = true) :
    (roleIsAdminOrStaff (promoteStaff uid db) uid && r.administered_by == uid) = true := by
  rw [Bool.and_eq_true] at h ⊢
  exact ⟨promoteStaff_roleIsAdminOrStaff db uid h.1, h.2⟩

/-- Every policy of the final set is monotone under promoting the acting
STAFF member to ADMIN: a predicate true of the actor stays true after the
promotion (row-owner predicates ignore the role; role predicates admit ADMIN
wherever they admit STAFF). -/
theorem finalPolicies_promote (p : Policy) (hp : p ∈ finalPolicies)
    (db : List Profile) (uid : UserId) (r : Row) (h : p.pred db uid r = true) :
    p.pred (promoteStaff uid db) uid r = true := by
  fin_cases hp <;>
    first
      | exact h
      | exact promoteStaff_isAdminOrStaff db uid h
      | exact promoteStaff_isFamilyActor db uid h
      | exact promoteStaff_isAdminActor db uid h
      | exact promoteStaff_roleIsAdminOrStaff db uid h
      | exact promoteStaff_staffInsert db uid h
      | exact promoteStaff_medLogInsert db uid r h

/-- C6: ADMIN permissions are a superset of STAFF permissions in every rule:
whatever the final policy set permits for an actor, it still permits for the
same actor (same id, hence the same owner-field relationships to the row)
after that actor's STAFF profile is recorded as ADMIN instead. -/
theorem admin_superset_of_staff (db : List Profile) (uid : UserId) (t : Tab) (o : Op) (r : Row)
    (h : permits finalPolicies db uid t o r = true) :
    permits finalPolicies (promoteStaff uid db) uid t o r = true := by
  unfold permits applicablePolicies at h ⊢
  rw [List.any_eq_true] at h ⊢
  obtain ⟨p, hp, hpred⟩ := h
  exact ⟨p, hp, finalPolicies_promote p (List.mem_of_mem_filter hp) db uid r hpred⟩

/-- Witness for C6: the STAFF actor 2 may SELECT residents, and after being
recorded as ADMIN the same SELECT on the same row is still permitted. -/
theorem admin_superset_of_staff_witness :
    permits finalPolicies sampleDb 2 Tab.residents Op.SELECT sampleRow = true ∧
    permits finalPolicies (promoteStaff 2 sampleDb) 2 Tab.residents Op.SELECT sampleRow = true :=
  ⟨by decide, admin_superset_of_staff sampleDb 2 Tab.residents Op.SELECT sampleRow (by decide)⟩

/-- C10: an actor whose profile role is ADMIN or STAFF may INSERT a
medication_log row iff the row's administered_by equals the actor's own id,
so every medication_log row records its authenticated inserter as the
administrator. -/
theorem medication_log_insert_self_only (db : List Profile) (uid : UserId) (r : Row)
    (h : get_my_role db uid = some Role.ADMIN ∨ get_my_role db uid = some Role.STAFF) :
    (permits finalPolicies db uid Tab.medication_log Op.INSERT r = true ↔
      r.administered_by = uid) := by
  have hrole : roleIsAdminOrStaff db uid = true := by
    rcases h with h | h <;> simp [roleIsAdminOrStaff, h]
  simp [permits, applMedLogInsert, medLogInsertStaffAdmin, hrole]

/-- Witness for C10: the STAFF actor 2 may insert a log administered by
actor 2. -/
theorem medication_log_insert_self_only_witness :
    permits finalPolicies sampleDb 2 Tab.medication_log Op.INSERT ⟨0, 0, 0, 0, 0, 2, none⟩ = true :=
  (medication_log_insert_self_only sampleDb 2 ⟨0, 0, 0, 0, 0, 2, none⟩
    (Or.inr (by decide))).mpr rfl

theorem agreesExceptStatus_parts {p q : Profile} (h : agreesExceptStatus p q = true) :
    p.id = q.id ∧ p.email = q.email ∧ p.full_name = q.full_name ∧ p.role = q.role := by
  simp only [agreesExceptStatus, Bool.and_eq_true, beq_iff_eq] at h
  exact ⟨h.1.1.1, h.1.1.2, h.1.2, h.2⟩

/-- A profile predicate that does not look at `status` evaluates equally
across two states that differ only in status values. -/
theorem sameExceptStatus_any (q : Profile → Bool)
    (hq : ∀ p x, agreesExceptStatus p x = true → q p = q x) :
    ∀ db db', sameExceptStatus db db' = true → db.any q = db'.any q := by
  intro db
  induction db with
  | nil =>
    intro db' h
    cases db' with
    | nil => rfl
    | cons x xs => simp [sameExceptStatus] at h
  | cons p ps ih =>
    intro db' h
    cases db' with
    | nil => simp [sameExceptStatus] at h
    | cons x xs =>
      simp only [sameExceptStatus, Bool.and_eq_true] at h
      obtain ⟨h1, h2⟩ := h
      simp only [List.any_cons, hq p x h1, ih xs h2]

theorem sameExceptStatus_get_my_role :
    ∀ db db', sameExceptStatus db db' = true →
      ∀ uid, get_my_role db uid = get_my_role db' uid := by
  intro db
  induction db with
  | nil =>
    intro db' h uid
    cases db' with
    | nil => rfl
    | cons x xs => simp [sameExceptStatus] at h
  | cons p ps ih =>
    intro db' h uid
    cases db' with
    | nil => simp [sameExceptStatus] at h
    | cons x xs =>
      simp only [sameExceptStatus, Bool.and_eq_true] at h
      obtain ⟨h1, h2⟩ := h
      obtain ⟨hid, _he, _hn, hrole⟩ := agreesExceptStatus_parts h1
      unfold get_my_role
      rw [List.find?_cons, List.find?_cons, hid]
      rcases hx : (x.id == uid) with _ | _
      · exact ih xs h2 uid
      · simp [hrole]

theorem sameExceptStatus_isAdminOrStaff (db db' : List Profile) (uid : UserId)
    (h : sameExceptStatus db db' = true) :
    isAdminOrStaff db uid = isAdminOrStaff db' uid :=
  sameExceptStatus_any _
    (fun p x hpx => by
      obtain ⟨hid, _, _, hrole⟩ := agreesExceptStatus_parts hpx
      simp [hid, hrole])
    db db' h

theorem sameExceptStatus_isFamilyActor (db db' : List Profile) (uid : UserId)
    (h : sameExceptStatus db db' = true) :
    isFamilyActor db uid = isFamilyActor db' uid :=
  sameExceptStatus_any _
    (fun p x hpx => by
      obtain ⟨hid, _, _, hrole⟩ := agreesExceptStatus_parts hpx
      simp [hid, hrole])
    db db' h

theorem sameExceptStatus_isAdminActor (db db' : List Profile) (uid : UserId)
    (h : sameExceptStatus db db' = true) :
    isAdminActor db uid = isAdminActor db' uid :=
  sameExceptStatus_any _
    (fun p x hpx => by
      obtain ⟨hid, _, _, hrole⟩ := agreesExceptStatus_parts hpx
      simp [hid, hrole])
    db db' h

theorem sameExceptStatus_roleIsAdminOrStaff (db db' : List Profile) (uid : UserId)
    (h : sameExceptStatus db db' = true) :
    roleIsAdminOrStaff db uid = roleIsAdminOrStaff db' uid := by
  unfold roleIsAdminOrStaff
  rw [sameExceptStatus_get_my_role db db' h uid]

theorem sameExceptStatus_filterMap :
    ∀ db db', sameExceptStatus db db' = true →
      (db.filter (fun p => p.role == Role.ADMIN || p.role == Role.STAFF)).map
          assigneeProjection =
        (db'.filter (fun p => p.role == Role.ADMIN || p.role == Role.STAFF)).map
          assigneeProjection := by
  intro db
  induction db with
  | nil =>
    intro db' h
    cases db' with
    | nil => rfl
    | cons x xs => simp [sameExceptStatus] at h
  | cons p ps ih =>
    intro db' h
    cases db' with
    | nil => simp [sameExceptStatus] at h
    | cons x xs =>
      simp only [sameExceptStatus, Bool.and_eq_true] at h
      obtain ⟨h1, h2⟩ := h
      obtain ⟨hid, hemail, hname, hrole⟩ := agreesExceptStatus_parts h1
      rw [List.filter_cons, List.filter_cons, hrole]
      rcases hx : (x.role == Role.ADMIN || x.role == Role.STAFF) with _ | _ <;>
        simp [ih xs h2, assigneeProjection, hid, hemail, hname]

/-- C7: setting a profile's status has no effect on any current SELECT
decision or on the profile-listing fetch: across two database states that
differ only in status values every SELECT decision on every table is
identical, SELECT decisions also ignore the candidate row's own status
column, and the potential-assignees fetch (whose status filter is commented
out) returns identical results. -/
theorem status_inert_for_select_and_fetch (db db' : List Profile)
    (h : sameExceptStatus db db' = true) :
    (∀ (uid : UserId) (t : Tab) (r : Row),
      permits finalPolicies db uid t Op.SELECT r =
        permits finalPolicies db' uid t Op.SELECT r) ∧
    (∀ (uid : UserId) (t : Tab) (r : Row) (s s' : Option String),
      permits finalPolicies db uid t Op.SELECT { r with status := s } =
        permits finalPolicies db uid t Op.SELECT { r with status := s' }) ∧
    fetchPotentialAssignees db = fetchPotentialAssignees db' := by
  refine ⟨?_, ?_, ?_⟩
  · intro uid t r
    cases t <;>
      simp only [permits, applProfilesSelect, applResidentsSelect, applStaffSelect,
        applEventsSelect, applIncidentsSelect, applMedicationsSelect,
        applAnnouncementsSelect, applCarePlansSelect, applCareRoutinesSelect,
        applChatSelectFinal, applNotificationsSelect, applTasksSelect,
        applTodosSelect, applMedLogSelect, List.any_cons, List.any_nil,
        profilesSelectOwn, profilesSelectAllFixed, residentsSelectStaffAdmin,
        residentsSelectFamily, staffSelectAll, staffSelectAdminStaff,
        eventsSelectAll, incidentsSelectStaffAdmin, medicationsSelectStaffAdmin,
        announcementsSelectAll, carePlansSelectStaffAdmin,
        careRoutinesSelectStaffAdmin, chatSelectOwn, notificationsSelectOwn,
        tasksSelectOwn, todosSelectOwn, medLogSelectStaffAdmin,
        sameExceptStatus_isAdminOrStaff db db' uid h,
        sameExceptStatus_isFamilyActor db db' uid h,
        sameExceptStatus_roleIsAdminOrStaff db db' uid h]
  · intro uid t r s s'
    cases t <;>
      simp only [permits, applProfilesSelect, applResidentsSelect, applStaffSelect,
        applEventsSelect, applIncidentsSelect, applMedicationsSelect,
        applAnnouncementsSelect, applCarePlansSelect, applCareRoutinesSelect,
        applChatSelectFinal, applNotificationsSelect, applTasksSelect,
        applTodosSelect, applMedLogSelect, List.any_cons, List.any_nil,
        profilesSelectOwn, profilesSelectAllFixed, residentsSelectStaffAdmin,
        residentsSelectFamily, staffSelectAll, staffSelectAdminStaff,
        eventsSelectAll, incidentsSelectStaffAdmin, medicationsSelectStaffAdmin,
        announcementsSelectAll, carePlansSelectStaffAdmin,
        careRoutinesSelectStaffAdmin, chatSelectOwn, notificationsSelectOwn,
        tasksSelectOwn, todosSelectOwn, medLogSelectStaffAdmin]
  · unfold fetchPotentialAssignees
    rw [sameExceptStatus_filterMap db db' h]

/-- The sample state with every status flipped to 'inactive'. -/
def sampleDbStatusChanged : List Profile :=
  sampleDb.map (fun p => { p with status := some "inactive" })

/-- Witness for C7: flipping every status in sampleDb to 'inactive' is a
status-only change, and the assignees fetch is unchanged by it. -/
theorem status_inert_for_select_and_fetch_witness :
    sameExceptStatus sampleDb sampleDbStatusChanged = true ∧
    fetchPotentialAssignees sampleDb = fetchPotentialAssignees sampleDbStatusChanged :=
  ⟨by decide,
   (status_inert_for_select_and_fetch sampleDb sampleDbStatusChanged (by decide)).2.2⟩

/-- C8: for a protected, non-auth, non-asset route with no auth cookie, the
gate fails open on unexpected errors: a thrown session fetch (caught by the
outer catch), a thrown role lookup (caught by the inner catch), and a role
lookup that returns a profileError all let the navigation proceed — the
response is returned unchanged — instead of redirecting to login.  (The
handled path in which getSession RETURNS an error object redirects to login;
the claim concerns the unexpected-error paths.) -/
theorem gate_fails_open (path : String) (cookieNames : List String)
    (hp : isProtectedRoute path = true) (ha : isAuthRoute path = false)
    (hs : isAssetPath path = false) (hc : hasAuthCookie cookieNames = false) :
    (∀ profileStep,
      (middleware path cookieNames Step.thrown profileStep).nav = Nav.proceed) ∧
    (∀ sid : UserId,
      (middleware path cookieNames (Step.ok ⟨false, some sid⟩) Step.thrown).nav =
        Nav.proceed) ∧
    (∀ (sid : UserId) (pr : ProfileRes), pr.hasError = true →
      (middleware path cookieNames (Step.ok ⟨false, some sid⟩) (Step.ok pr)).nav =
        Nav.proceed) := by
  refine ⟨?_, ?_, ?_⟩ <;>
    (intros
     simp [middleware, hp, ha, hs, hc, *])

/-- Witness for C8: at the protected route "/dashboard" with no cookies, each
of the three unexpected-error paths proceeds. -/
theorem gate_fails_open_witness :
    isProtectedRoute "/dashboard" = true ∧ isAuthRoute "/dashboard" = false ∧
    isAssetPath "/dashboard" = false ∧ hasAuthCookie [] = false ∧
    (middleware "/dashboard" [] Step.thrown (Step.ok ⟨false, none⟩)).nav = Nav.proceed ∧
    (middleware "/dashboard" [] (Step.ok ⟨false, some 7⟩) Step.thrown).nav = Nav.proceed ∧
    (middleware "/dashboard" [] (Step.ok ⟨false, some 7⟩) (Step.ok ⟨true, none⟩)).nav =
      Nav.proceed := by
  have h := gate_fails_open "/dashboard" [] (by decide) (by decide) (by decide) (by decide)
  exact ⟨by decide, by decide, by decide, by decide, h.1 _, h.2.1 7, h.2.2 7 ⟨true, none⟩ rfl⟩

/-- C9 counterexample: the cookie "sb-test-auth-token" starts with "sb-" and
contains "auth", and "/dashboard" is a protected route, yet the middleware
does NOT grant access immediately: the cookie heuristic fails (Object.entries
over the cookie ARRAY exposes the array indices "0", "1", ... — not cookie
names — to the pattern test), so the fallback session fetch runs and, with no
session present, the request is redirected to login. -/
theorem cookie_pattern_no_short_circuit :
    jsStartsWith "sb-test-auth-token" "sb-" = true ∧
    jsIncludes "sb-test-auth-token" "auth" = true ∧
    isProtectedRoute "/dashboard" = true ∧
    hasAuthCookie ["sb-test-auth-token"] = false ∧
    middleware "/dashboard" ["sb-test-auth-token"] (Step.ok ⟨false, none⟩)
        (Step.ok ⟨false, none⟩) = ⟨Nav.toLogin, true, false⟩ := by
  decide

/-- C9 (amended): only the two literal cookie names short-circuit the gate:
for every request to a protected route bearing a cookie named exactly
'sb-access-token' or 'sb-refresh-token', the middleware grants access
immediately, with neither the fallback session fetch nor the role check
performed — so the per-route allowed-roles list is never consulted for such
requests.  (A cookie merely matching the sb-*auth* pattern does not trigger
the short-circuit; see the counterexample.) -/
theorem cookie_short_circuit_literal_names (path : String) (cookieNames : List String)
    (sessionStep : Step SessionRes) (profileStep : Step ProfileRes)
    (hp : isProtectedRoute path = true)
    (hc : cookieNames.contains "sb-access-token" = true ∨
      cookieNames.contains "sb-refresh-token" = true) :
    middleware path cookieNames sessionStep profileStep =
      ⟨Nav.proceed, false, false⟩ := by
  have hac : hasAuthCookie cookieNames = true := by
    rcases hc with h | h
    · have h' : "sb-access-token" ∈ cookieNames := by simpa using h
      simp [hasAuthCookie, h']
    · have h' : "sb-refresh-token" ∈ cookieNames := by simpa using h
      simp [hasAuthCookie, h']
  simp [middleware, hac]

/-- Witness for C9's amended claim: a request to "/dashboard" carrying the
'sb-access-token' cookie proceeds with no session fetch and no role check. -/
theorem cookie_short_circuit_literal_names_witness :
    isProtectedRoute "/dashboard" = true ∧
    (["sb-access-token"].contains "sb-access-token" = true ∨
      (["sb-access-token"] : List String).contains "sb-refresh-token" = true) ∧
    middleware "/dashboard" ["sb-access-token"] Step.thrown (Step.ok ⟨false, none⟩) =
      ⟨Nav.proceed, false, false⟩ :=
  ⟨by decide, Or.inl (by decide),
   cookie_short_circuit_literal_names "/dashboard" ["sb-access-token"] Step.thrown
     (Step.ok ⟨false, none⟩) (by decide) (Or.inl (by decide))⟩

end CCAI
